import Mathlib

/-!
Verification of the trend-analysis scoring core of the Abra Trend Hunter
dashboard.

The repository ships two Python files under version control here:
`app.py` (the deep-dive pipeline of `main`) and
`components/social_media_panel.py`.  The scoring modules that `app.py`
imports (`modules/scoring.py`, `modules/google_trends.py`,
`modules/social_score.py`, `utils.py`) are not part of the checked-in
sources, so their behaviour is modelled from the specification document;
each such definition carries a doc comment starting with
`Modelled from the spec:`.  Definitions embedding checked-in code cite
the file and lines they come from.

Python floats are avoided throughout the modelled core (the spec works
with exact percentages and 0-100 scores), so numbers are embedded as `ℚ`
and integer scores as `ℤ`.  Python dicts with a fixed key set become
structures; `try/except` becomes `Option`/`Except`; a Python value that
may be `None` becomes `Option`.
-/

namespace AbraTrend

/-- ScoreResult from the spec data model: score is an integer 0-100,
grade a letter, factors a name-to-contribution map. -/
structure ScoreResult where
  score : ℤ
  grade : String
  factors : List (String × ℚ)
deriving Repr, DecidableEq

/-- Modelled from the spec: every sub-score is clamped to the interval
[0, 100] before weighting. -/
def clamp_subscore (x : ℚ) : ℚ := max 0 (min 100 x)

/-- Modelled from the spec: the final integer score is clamped to [0, 100]. -/
def clamp_score (s : ℤ) : ℤ := max 0 (min 100 s)

/-- Modelled from the spec: grade assigned by fixed score bands
(A: at least 80, B: at least 60, C: at least 40, D: at least 20, F: below 20). -/
def grade_for (s : ℤ) : String :=
  if 80 ≤ s then "A"
  else if 60 ≤ s then "B"
  else if 40 ≤ s then "C"
  else if 20 ≤ s then "D"
  else "F"

/-- Modelled from the spec: `modules/scoring.py` is not under the checked-in
sources.  The spec fixes the shape of `calculate_trend_score`: a weighted
composite of a normalized recent-average level (40% weight), a normalized
growth rate (30%) and a normalized related-query count (30%), each sub-score
clamped to [0, 100] before weighting, the output score rounded and clamped to
[0, 100], the grade taken from the fixed bands, and the factors map exposing
each weighted contribution by name.  The spec leaves the three normalization
transforms themselves unspecified, so the normalized sub-scores are taken as
the inputs here. -/
def calculate_trend_score (level_subscore growth_subscore related_subscore : ℚ) :
    ScoreResult :=
  let level_part : ℚ := (2 / 5) * clamp_subscore level_subscore
  let growth_part : ℚ := (3 / 10) * clamp_subscore growth_subscore
  let related_part : ℚ := (3 / 10) * clamp_subscore related_subscore
  let s : ℤ := clamp_score (round (level_part + growth_part + related_part))
  { score := s
    grade := grade_for s
    factors := [("level", level_part), ("growth", growth_part),
                ("related_queries", related_part)] }

/-- Modelled from the spec: `modules/scoring.py` is not under the checked-in
sources.  The spec fixes the shape of `calculate_potential_score`: a composite
of a normalized rising-related-query count and the current value as a momentum
proxy, plus an additive seasonality bonus of 10 when seasonal, with the same
clamping, rounding and grading rules as `calculate_trend_score`.  The spec
leaves the normalizations and the two component weights unspecified, so the
normalized sub-scores are taken as the inputs and the weights are an even
split. -/
def calculate_potential_score (rising_subscore momentum_subscore : ℚ)
    (is_seasonal : Bool) : ScoreResult :=
  let rising_part : ℚ := (1 / 2) * clamp_subscore rising_subscore
  let momentum_part : ℚ := (1 / 2) * clamp_subscore momentum_subscore
  let bonus : ℚ := if is_seasonal then 10 else 0
  let s : ℤ := clamp_score (round (rising_part + momentum_part + bonus))
  { score := s
    grade := grade_for s
    factors := [("rising_queries", rising_part), ("momentum", momentum_part),
                ("seasonality", bonus)] }

lemma clamp_score_nonneg (s : ℤ) : 0 ≤ clamp_score s := le_max_left 0 _

lemma clamp_score_le_hundred (s : ℤ) : clamp_score s ≤ 100 := by
  unfold clamp_score
  rcases le_total 0 (min 100 s) with h | h
  · rw [max_eq_right h]; exact min_le_left 100 s
  · rw [max_eq_left h]; norm_num

example : (calculate_trend_score 100 100 100).score = 100 := by
  norm_num [calculate_trend_score, clamp_subscore, clamp_score, round_eq]

example : (calculate_trend_score 79 79 79).grade = "B" := by
  norm_num [calculate_trend_score, clamp_subscore, clamp_score, grade_for, round_eq]

/-- C1: every score calculator returns an integer score in [0, 100], the grade
is exactly the one given by the fixed bands (A for 80 ≤ s, B for 60 ≤ s < 80,
C for 40 ≤ s < 60, D for 20 ≤ s < 40, F for s < 20), and in particular a score
of 80 grades A while 79 grades B. -/
theorem score_calculators_bounded_and_banded
    (a b c d e : ℚ) (seas : Bool) (s : ℤ) :
    (0 ≤ (calculate_trend_score a b c).score ∧
      (calculate_trend_score a b c).score ≤ 100 ∧
      (calculate_trend_score a b c).grade =
        grade_for (calculate_trend_score a b c).score) ∧
    (0 ≤ (calculate_potential_score d e seas).score ∧
      (calculate_potential_score d e seas).score ≤ 100 ∧
      (calculate_potential_score d e seas).grade =
        grade_for (calculate_potential_score d e seas).score) ∧
    ((grade_for s = "A" ↔ 80 ≤ s) ∧
      (grade_for s = "B" ↔ 60 ≤ s ∧ s < 80) ∧
      (grade_for s = "C" ↔ 40 ≤ s ∧ s < 60) ∧
      (grade_for s = "D" ↔ 20 ≤ s ∧ s < 40) ∧
      (grade_for s = "F" ↔ s < 20)) ∧
    grade_for 80 = "A" ∧ grade_for 79 = "B" := by
  refine ⟨⟨clamp_score_nonneg _, clamp_score_le_hundred _, rfl⟩,
    ⟨clamp_score_nonneg _, clamp_score_le_hundred _, rfl⟩, ?_, by decide, by decide⟩
  unfold grade_for
  split_ifs <;> simp_all <;> omega

/-- GrowthMetrics from the spec data model. -/
structure GrowthMetrics where
  current_value : ℚ
  previous_value : ℚ
  growth_rate : ℚ
  trend_direction : String
deriving Repr, DecidableEq

/-- Modelled from the spec: the lookback offset of `calculate_growth_rate` is
a fixed constant the spec suggests as one period prior. -/
def LOOKBACK_OFFSET : ℕ := 1

/-- Modelled from the spec: the current value is the last sample of the
series. -/
def growth_current (series : List ℚ) : ℚ := series.getLast?.getD 0

/-- Modelled from the spec: the previous value is the sample at the fixed
lookback offset from the end, or the first sample if the series is shorter
than the offset. -/
def growth_previous (series : List ℚ) : ℚ :=
  if LOOKBACK_OFFSET < series.length then
    series.getD (series.length - 1 - LOOKBACK_OFFSET) 0
  else series.head?.getD 0

/-- Modelled from the spec: `calculate_growth_rate` lives in
`modules/google_trends.py`, which is not under the checked-in sources.  Per
the spec it returns a zeroed GrowthMetrics on empty input; otherwise
growth_rate = (current - previous) / previous * 100 with 0 returned when
previous = 0, and trend_direction follows the sign of the rate. -/
def calculate_growth_rate (series : List ℚ) : GrowthMetrics :=
  if series.isEmpty then
    { current_value := 0, previous_value := 0, growth_rate := 0,
      trend_direction := "flat" }
  else
    let current := growth_current series
    let previous := growth_previous series
    let rate : ℚ := if previous = 0 then 0 else (current - previous) / previous * 100
    { current_value := current, previous_value := previous, growth_rate := rate,
      trend_direction := if 0 < rate then "up" else if rate < 0 then "down" else "flat" }

/-- C2: whenever the previous value determined by `calculate_growth_rate` is
zero, the returned growth rate is zero: the division is guarded and never
performed with a zero divisor. -/
theorem growth_rate_zero_when_previous_zero (series : List ℚ)
    (h : (calculate_growth_rate series).previous_value = 0) :
    (calculate_growth_rate series).growth_rate = 0 := by
  simp only [calculate_growth_rate] at h ⊢
  split_ifs at h ⊢ <;> simp_all

/-- Witness for C2 at the concrete series [0, 5]: its previous value is the
first sample, 0, and the growth rate comes out 0. -/
theorem growth_rate_zero_when_previous_zero_witness :
    (calculate_growth_rate [0, 5]).growth_rate = 0 :=
  growth_rate_zero_when_previous_zero [0, 5] (by
    norm_num [calculate_growth_rate, growth_previous, LOOKBACK_OFFSET])

/-- OpportunityLevel from the spec data model: a qualitative level, the
combined score, a fixed recommended action and display color/icon. -/
structure OpportunityLevel where
  level : String
  combined_score : ℚ
  action : String
  color : String
  icon : String
deriving Repr, DecidableEq

/-- Modelled from the spec: `calculate_opportunity_level` lives in
`modules/scoring.py`, which is not under the checked-in sources.  Per the
spec, combined_score is the 50/50 weighted average of the two input scores,
any out-of-range input is clamped silently, and the level is chosen from five
fixed bands spanning 0-100, each carrying a fixed action string and display
color/icon.  The spec does not fix the interior band thresholds; they are
modelled as five equal 20-point bands. -/
def calculate_opportunity_level (trend_score potential_score : ℚ) :
    OpportunityLevel :=
  let c : ℚ := (clamp_subscore trend_score + clamp_subscore potential_score) / 2
  if 80 ≤ c then
    { level := "MUY_ALTA", combined_score := c, action := "Prioridad maxima",
      color := "#10B981", icon := "🚀" }
  else if 60 ≤ c then
    { level := "ALTA", combined_score := c, action := "Alta prioridad",
      color := "#F59E0B", icon := "📈" }
  else if 40 ≤ c then
    { level := "MEDIA", combined_score := c, action := "Vigilar evolucion",
      color := "#3B82F6", icon := "👀" }
  else if 20 ≤ c then
    { level := "BAJA", combined_score := c, action := "Baja prioridad",
      color := "#F97316", icon := "📉" }
  else
    { level := "MUY_BAJA", combined_score := c, action := "No prioritario",
      color := "#EF4444", icon := "❄️" }

lemma clamp_subscore_of_mem_Icc {x : ℚ} (h0 : 0 ≤ x) (h1 : x ≤ 100) :
    clamp_subscore x = x := by
  unfold clamp_subscore
  rw [min_eq_right h1, max_eq_right h0]

/-- C3: the opportunity level at (0, 0) is MUY_BAJA with combined score 0, at
(100, 100) it is MUY_ALTA with combined score 100, and for in-range inputs the
combined score is the 50/50 weighted average of the two inputs. -/
theorem calculate_opportunity_level_extremes (t p : ℚ)
    (ht0 : 0 ≤ t) (ht1 : t ≤ 100) (hp0 : 0 ≤ p) (hp1 : p ≤ 100) :
    ((calculate_opportunity_level 0 0).level = "MUY_BAJA" ∧
      (calculate_opportunity_level 0 0).combined_score = 0) ∧
    ((calculate_opportunity_level 100 100).level = "MUY_ALTA" ∧
      (calculate_opportunity_level 100 100).combined_score = 100) ∧
    (calculate_opportunity_level t p).combined_score = (t + p) / 2 := by
  refine ⟨⟨?_, ?_⟩, ⟨?_, ?_⟩, ?_⟩
  · norm_num [calculate_opportunity_level, clamp_subscore]
  · norm_num [calculate_opportunity_level, clamp_subscore]
  · norm_num [calculate_opportunity_level, clamp_subscore]
  · norm_num [calculate_opportunity_level, clamp_subscore]
  · simp only [calculate_opportunity_level,
      clamp_subscore_of_mem_Icc ht0 ht1, clamp_subscore_of_mem_Icc hp0 hp1]
    split_ifs <;> rfl

/-- Witness for C3 at the concrete in-range pair (30, 70). -/
theorem calculate_opportunity_level_extremes_witness :
    (calculate_opportunity_level 0 0).level = "MUY_BAJA" ∧
    (calculate_opportunity_level 100 100).level = "MUY_ALTA" ∧
    (calculate_opportunity_level 30 70).combined_score = (30 + 70) / 2 := by
  have h := calculate_opportunity_level_extremes 30 70
    (by norm_num) (by norm_num) (by norm_num) (by norm_num)
  exact ⟨h.1.1, h.2.1.1, h.2.2⟩

/-- SocialScoreResult from the spec data model. -/
structure SocialScoreResult where
  social_score : ℤ
  opportunity_type : String
  opportunity_description : String
deriving Repr, DecidableEq

/-- Modelled from the spec: the named classification threshold below which a
score counts as low.  The spec requires named constants but gives the values
only by example. -/
def SOCIAL_LOW_THRESHOLD : ℚ := 40

/-- Modelled from the spec: the named classification threshold at or above
which a score counts as high. -/
def SOCIAL_HIGH_THRESHOLD : ℚ := 60

/-- Modelled from the spec: relative platform weights used when both
platforms are present; the spec leaves the split unspecified. -/
def YOUTUBE_WEIGHT : ℚ := 3 / 5

/-- Modelled from the spec: see `YOUTUBE_WEIGHT`. -/
def TIKTOK_WEIGHT : ℚ := 2 / 5

/-- Modelled from the spec: the opportunity-type decision tree over the
(trends_score, social_score) quadrants: low trends and high social is an
early opportunity, high trends and low social a content gap, both high
established, both low low traction, and intermediate mixed values emerging. -/
def classify_social_opportunity (trends_score : ℚ) (social_score : ℤ) : String :=
  if trends_score < SOCIAL_LOW_THRESHOLD ∧
      SOCIAL_HIGH_THRESHOLD ≤ (social_score : ℚ) then "early_opportunity"
  else if SOCIAL_HIGH_THRESHOLD ≤ trends_score ∧
      (social_score : ℚ) < SOCIAL_LOW_THRESHOLD then "content_gap"
  else if SOCIAL_HIGH_THRESHOLD ≤ trends_score ∧
      SOCIAL_HIGH_THRESHOLD ≤ (social_score : ℚ) then "established"
  else if trends_score < SOCIAL_LOW_THRESHOLD ∧
      (social_score : ℚ) < SOCIAL_LOW_THRESHOLD then "low_traction"
  else "emerging"

/-- Modelled from the spec: a fixed template string per opportunity type,
interpolating the keyword. -/
def social_opportunity_description (opp_type keyword : String) : String :=
  if opp_type = "early_opportunity" then
    "Oportunidad temprana detectada para " ++ keyword
  else if opp_type = "content_gap" then "Hueco de contenido para " ++ keyword
  else if opp_type = "established" then "Mercado establecido para " ++ keyword
  else if opp_type = "low_traction" then "Poca traccion para " ++ keyword
  else if opp_type = "emerging" then "Tendencia emergente para " ++ keyword
  else "Sin datos sociales para " ++ keyword

/-- Modelled from the spec: builds the SocialScoreResult from the blended
platform score: the social score is the blend rounded and clamped to
[0, 100], classified against the trends score. -/
def social_result (keyword : String) (trends_score blend : ℚ) : SocialScoreResult :=
  let s : ℤ := clamp_score (round blend)
  { social_score := s
    opportunity_type := classify_social_opportunity trends_score s
    opportunity_description :=
      social_opportunity_description (classify_social_opportunity trends_score s) keyword }

/-- Modelled from the spec: the social score calculator's `calculate` lives in
`modules/social_score.py`, which is not under the checked-in sources.  Per
the spec, each platform metrics argument may be absent; the social score is a
weighted blend of the present platforms' content/viral scores, an absent
platform's weight being redistributed proportionally among the present ones
(so a single present platform carries full weight), and with both platforms
absent the result degrades to score 0 with opportunity type none rather than
raising.  Each platform metrics object is represented here by its
content/viral score. -/
def social_calculate (keyword : String) (youtube_metrics tiktok_metrics : Option ℚ)
    (trends_score : ℚ) : SocialScoreResult :=
  match youtube_metrics, tiktok_metrics with
  | none, none =>
    { social_score := 0, opportunity_type := "none",
      opportunity_description := social_opportunity_description "none" keyword }
  | some y, none => social_result keyword trends_score (clamp_subscore y)
  | none, some t => social_result keyword trends_score (clamp_subscore t)
  | some y, some t =>
    social_result keyword trends_score
      (YOUTUBE_WEIGHT * clamp_subscore y + TIKTOK_WEIGHT * clamp_subscore t)

lemma clamp_score_of_bounds {n : ℤ} (h0 : 0 ≤ n) (h1 : n ≤ 100) :
    clamp_score n = n := by
  unfold clamp_score
  rw [min_eq_right h1, max_eq_right h0]

lemma round_mem_Icc_of_mem_Icc {s : ℚ} (h0 : 0 ≤ s) (h1 : s ≤ 100) :
    0 ≤ round s ∧ round s ≤ 100 := by
  rw [round_eq]
  constructor
  · exact Int.le_floor.mpr (by push_cast; linarith)
  · calc ⌊s + 1 / 2⌋ ≤ ⌊(201 : ℚ) / 2⌋ := Int.floor_mono (by linarith)
      _ = 100 := by rw [Int.floor_eq_iff]; norm_num

/-- C4: with exactly one platform present the weight redistributes fully to
that platform: the social score equals the present platform's own (rounded)
score, not a down-weighted version of it; in particular a single platform
with content score 80 against trends score 20 classifies as an early
opportunity. -/
theorem social_calculate_single_platform (keyword : String) (trends s : ℚ)
    (h0 : 0 ≤ s) (h1 : s ≤ 100) :
    ((social_calculate keyword (some s) none trends).social_score = round s ∧
      (social_calculate keyword none (some s) trends).social_score = round s) ∧
    (social_calculate keyword (some 80) none 20).opportunity_type =
      "early_opportunity" := by
  obtain ⟨hr0, hr1⟩ := round_mem_Icc_of_mem_Icc h0 h1
  refine ⟨⟨?_, ?_⟩, ?_⟩
  · simp only [social_calculate, social_result, clamp_subscore_of_mem_Icc h0 h1,
      clamp_score_of_bounds hr0 hr1]
  · simp only [social_calculate, social_result, clamp_subscore_of_mem_Icc h0 h1,
      clamp_score_of_bounds hr0 hr1]
  · norm_num [social_calculate, social_result, clamp_subscore, clamp_score,
      classify_social_opportunity, SOCIAL_LOW_THRESHOLD, SOCIAL_HIGH_THRESHOLD,
      round_eq]

/-- Witness for C4 at keyword "beelink", trends score 20 and platform score 80. -/
theorem social_calculate_single_platform_witness :
    ((social_calculate "beelink" (some 80) none 20).social_score = round (80 : ℚ) ∧
      (social_calculate "beelink" none (some 80) 20).social_score = round (80 : ℚ)) ∧
    (social_calculate "beelink" (some 80) none 20).opportunity_type =
      "early_opportunity" :=
  social_calculate_single_platform "beelink" 20 80 (by norm_num) (by norm_num)

/-- C5: with both platform metrics absent, `calculate` returns social score 0
and opportunity type none for every keyword and trends score (and, being a
total function, raises nothing). -/
theorem social_calculate_both_absent (keyword : String) (trends : ℚ) :
    (social_calculate keyword none none trends).social_score = 0 ∧
    (social_calculate keyword none none trends).opportunity_type = "none" :=
  ⟨rfl, rfl⟩

/-- SeasonalityMetrics from the spec data model. -/
structure SeasonalityMetrics where
  is_seasonal : Bool
  peak_periods : List ℕ
  variance_ratio : ℚ
deriving Repr, DecidableEq

/-- Modelled from the spec: one full cycle is a year of monthly periods. -/
def CYCLE_LENGTH : ℕ := 12

/-- Modelled from the spec: is_seasonal fires when the max-period-average
exceeds this multiple of the overall average. -/
def SEASONAL_RATIO_THRESHOLD : ℚ := 3 / 2

/-- Modelled from the spec: a period is a peak when its average exceeds this
multiple of the overall average. -/
def PEAK_RATIO_THRESHOLD : ℚ := 6 / 5

/-- Average of a list of rationals; 0 on the empty list. -/
def list_average (l : List ℚ) : ℚ :=
  if l.length = 0 then 0 else l.sum / l.length

/-- Modelled from the spec: the samples falling in period-of-year `p`, a
sample being a (period label, value) pair grouped modulo the cycle length. -/
def period_samples (series : List (ℕ × ℚ)) (p : ℕ) : List ℚ :=
  (series.filter (fun x => x.1 % CYCLE_LENGTH == p)).map (fun x => x.2)

/-- Modelled from the spec: `calculate_seasonality` lives in
`modules/google_trends.py`, which is not under the checked-in sources.  Per
the spec it groups samples by period-of-year, computes per-period averages,
flags is_seasonal when the ratio of the max period average to the overall
average exceeds the fixed threshold, collects the peak periods above the
secondary threshold, and returns is_seasonal = false outright for a series
shorter than one full cycle rather than dividing by an undersized sample. -/
def calculate_seasonality (series : List (ℕ × ℚ)) : SeasonalityMetrics :=
  if series.length < CYCLE_LENGTH then
    { is_seasonal := false, peak_periods := [], variance_ratio := 0 }
  else
    let overall := list_average (series.map (fun x => x.2))
    let period_avgs :=
      (List.range CYCLE_LENGTH).map (fun p => list_average (period_samples series p))
    let max_avg := period_avgs.foldr max 0
    let ratio : ℚ := if overall = 0 then 0 else max_avg / overall
    { is_seasonal := decide (SEASONAL_RATIO_THRESHOLD < ratio)
      peak_periods := (List.range CYCLE_LENGTH).filter
        (fun p => decide (PEAK_RATIO_THRESHOLD * overall <
          list_average (period_samples series p)))
      variance_ratio := ratio }

lemma list_average_const {l : List ℚ} {c : ℚ} (hne : l ≠ [])
    (h : ∀ x ∈ l, x = c) : list_average l = c := by
  have hsum : l.sum = l.length • c := List.sum_eq_card_nsmul l c h
  have hlen : (l.length : ℚ) ≠ 0 :=
    Nat.cast_ne_zero.mpr (fun h0 => hne (List.length_eq_zero.mp h0))
  unfold list_average
  rw [if_neg (by simpa using hne), hsum, nsmul_eq_mul, mul_comm,
    mul_div_assoc, div_self hlen, mul_one]

lemma foldr_max_nonneg (l : List ℚ) : 0 ≤ l.foldr max 0 := by
  induction l with
  | nil => simp
  | cons a t ih => simpa using Or.inr ih

lemma foldr_max_le {l : List ℚ} {m : ℚ} (hm : 0 ≤ m)
    (h : ∀ a ∈ l, a ≤ m) : l.foldr max 0 ≤ m := by
  induction l with
  | nil => simpa using hm
  | cons a t ih =>
    simp only [List.foldr_cons, max_le_iff]
    exact ⟨h a (by simp), ih fun b hb => h b (by simp [hb])⟩

/-- C6: seasonality detection returns is_seasonal = false on every flat
series (all sample values equal), and returns is_seasonal = false on every
series shorter than one full cycle. -/
theorem calculate_seasonality_flat_and_short (series : List (ℕ × ℚ)) (c : ℚ)
    (hflat : ∀ x ∈ series, x.2 = c) :
    (calculate_seasonality series).is_seasonal = false ∧
    ∀ short : List (ℕ × ℚ), short.length < CYCLE_LENGTH →
      (calculate_seasonality short).is_seasonal = false := by
  constructor
  · by_cases hlen : series.length < CYCLE_LENGTH
    · simp [calculate_seasonality, hlen]
    · have hne : series ≠ [] := by
        intro h
        rw [h] at hlen
        exact hlen (by norm_num [CYCLE_LENGTH])
      have hoverall : list_average (series.map (fun x => x.2)) = c :=
        list_average_const (by simpa using hne) (by
          intro x hx
          obtain ⟨y, hy, rfl⟩ := List.mem_map.mp hx
          exact hflat y hy)
      have hperiod : ∀ p : ℕ,
          list_average (period_samples series p) = c ∨
          list_average (period_samples series p) = 0 := by
        intro p
        by_cases hp : period_samples series p = []
        · right; rw [hp]; rfl
        · left
          refine list_average_const hp ?_
          intro x hx
          obtain ⟨y, hy, rfl⟩ := List.mem_map.mp hx
          exact hflat y (List.mem_of_mem_filter hy)
      have hmax_le : ((List.range CYCLE_LENGTH).map
          (fun p => list_average (period_samples series p))).foldr max 0 ≤
          max c 0 := by
        refine foldr_max_le (le_max_right c 0) ?_
        intro a ha
        obtain ⟨p, _, rfl⟩ := List.mem_map.mp ha
        rcases hperiod p with h | h <;> rw [h]
        · exact le_max_left c 0
        · exact le_max_right c 0
      have hmax_nonneg := foldr_max_nonneg
        ((List.range CYCLE_LENGTH).map (fun p => list_average (period_samples series p)))
      simp only [calculate_seasonality, if_neg hlen, hoverall]
      set M := ((List.range CYCLE_LENGTH).map
        (fun p => list_average (period_samples series p))).foldr max 0 with hM
      have hratio : (if c = 0 then (0 : ℚ) else M / c) ≤ 1 := by
        by_cases hc : c = 0
        · simp [hc]
        · rw [if_neg hc]
          rcases lt_trichotomy c 0 with hneg | hzero | hpos
          · have hM0 : M = 0 := le_antisymm (by
              have : max c 0 = 0 := max_eq_right hneg.le
              rw [this] at hmax_le
              exact hmax_le) hmax_nonneg
            rw [hM0, zero_div]
            norm_num
          · exact absurd hzero hc
          · have hMc : M ≤ c := by
              have : max c 0 = c := max_eq_left hpos.le
              rw [this] at hmax_le
              exact hmax_le
            rw [div_le_one hpos]
            exact hMc
      rw [decide_eq_false_iff_not]
      intro hgt
      have : SEASONAL_RATIO_THRESHOLD ≤ 1 := le_trans hgt.le hratio
      norm_num [SEASONAL_RATIO_THRESHOLD] at this
  · intro short hshort
    simp [calculate_seasonality, hshort]

/-- Witness for C6: a flat year-long series at value 5 is not seasonal, and
the empty series (shorter than one cycle) is not seasonal. -/
theorem calculate_seasonality_flat_and_short_witness :
    (calculate_seasonality ((List.range 12).map (fun m => (m, (5 : ℚ))))).is_seasonal
      = false ∧
    (calculate_seasonality []).is_seasonal = false := by
  have h := calculate_seasonality_flat_and_short
    ((List.range 12).map (fun m => (m, (5 : ℚ)))) 5 (by
      intro x hx
      obtain ⟨m, _, rfl⟩ := List.mem_map.mp hx
      rfl)
  exact ⟨h.1, h.2 [] (by norm_num [CYCLE_LENGTH])⟩

/-- Modelled from the spec: the bound on the search-history list; the spec
fixes only that the list is size-bounded, not the bound itself. -/
def MAX_HISTORY : ℕ := 10

/-- Modelled from the spec: `add_to_history` lives in `utils.py`, which is
not under the checked-in sources (`app.py` line 199 calls it).  Per the spec
the history deduplicates by most-recent-occurrence — an existing entry moves
to the front rather than being duplicated — and the size-bounded list evicts
oldest-first.  The front of the list is the most-recent position, so the
oldest entry is the last one. -/
def add_to_history (keyword : String) (history : List String) : List String :=
  (keyword :: history.filter (fun k => k != keyword)).take MAX_HISTORY

lemma not_mem_filter_ne_self (keyword : String) (history : List String) :
    keyword ∉ history.filter (fun k => k != keyword) := by
  intro hmem
  have := List.of_mem_filter hmem
  simp at this

/-- C7: the history list keeps no duplicates and never exceeds its bound:
the result never exceeds MAX_HISTORY entries, the added keyword sits at the
most-recent (front) position and occurs exactly once, nodup-ness is
preserved, and adding a new keyword to a full list evicts exactly the oldest
(last) entry. -/
theorem add_to_history_invariants (keyword : String) (history : List String) :
    (add_to_history keyword history).length ≤ MAX_HISTORY ∧
    (add_to_history keyword history).head? = some keyword ∧
    (add_to_history keyword history).count keyword = 1 ∧
    (history.Nodup → (add_to_history keyword history).Nodup) ∧
    (keyword ∉ history → history.length = MAX_HISTORY →
      add_to_history keyword history = keyword :: history.dropLast) := by
  have hfilter := not_mem_filter_ne_self keyword history
  refine ⟨?_, ?_, ?_, ?_, ?_⟩
  · simp only [add_to_history, List.length_take]
    exact min_le_left MAX_HISTORY _
  · simp [add_to_history, MAX_HISTORY, List.take_succ_cons]
  · rw [add_to_history, MAX_HISTORY, List.take_succ_cons, List.count_cons_self]
    have : keyword ∉ (history.filter (fun k => k != keyword)).take 9 :=
      fun hmem => hfilter (List.take_subset 9 _ hmem)
    rw [List.count_eq_zero.mpr this]
  · intro hnd
    refine List.Sublist.nodup (List.take_sublist _ _) ?_
    exact List.nodup_cons.mpr ⟨hfilter, hnd.filter _⟩
  · intro hnotmem hlen
    have hself : history.filter (fun k => k != keyword) = history :=
      List.filter_eq_self.mpr (fun a ha => by
        simp only [bne_iff_ne, ne_eq, decide_eq_true_eq]
        exact fun h => hnotmem (h ▸ ha))
    rw [add_to_history, hself, MAX_HISTORY, List.take_succ_cons,
      List.dropLast_eq_take, hlen]
    norm_num [MAX_HISTORY]

/-- Witness for C7: deduplicating re-add on a nodup list stays nodup, and
adding an eleventh keyword to a full ten-entry list evicts the oldest. -/
theorem add_to_history_invariants_witness :
    (add_to_history "a" ["b", "a", "c"]).Nodup ∧
    add_to_history "k" ["a0", "a1", "a2", "a3", "a4", "a5", "a6", "a7", "a8", "a9"] =
      "k" :: ["a0", "a1", "a2", "a3", "a4", "a5", "a6", "a7", "a8", "a9"].dropLast :=
  ⟨(add_to_history_invariants "a" ["b", "a", "c"]).2.2.2.1 (by decide),
    (add_to_history_invariants "k"
        ["a0", "a1", "a2", "a3", "a4", "a5", "a6", "a7", "a8", "a9"]).2.2.2.2
      (by decide) (by decide)⟩

/-- Embeds the scoring stage of `main` (src/app.py lines 280-305).  Each of
the three scoring calls is a fallible computation, modelled by an `Option`
outcome where `none` stands for a raised exception; the surrounding
`try/except` blocks substitute the fixed default for a raised call.  The
opportunity call is applied to the score fields of the two earlier results
(the `.get("score", 0)` reads, total here), so its outcome is a function of
those two scores. -/
def main_deep_dive_scores (trend_outcome potential_outcome : Option ScoreResult)
    (opportunity_outcome : ℤ → ℤ → Option OpportunityLevel) :
    ScoreResult × ScoreResult × OpportunityLevel :=
  let trend_score := match trend_outcome with
    | some r => r
    | none => { score := 0, grade := "F", factors := [] }
  let potential_score := match potential_outcome with
    | some r => r
    | none => { score := 0, grade := "F", factors := [] }
  let opportunity := match opportunity_outcome trend_score.score potential_score.score with
    | some o => o
    | none =>
      { level := "MUY BAJA", combined_score := 0, action := "No prioritario",
        color := "#EF4444", icon := "❄️" }
  (trend_score, potential_score, opportunity)

/-- C8: no scoring exception escapes the deep-dive pipeline: a raised
`calculate_trend_score` or `calculate_potential_score` yields the fixed
score-0 grade-F default with empty factors, and a raised
`calculate_opportunity_level` yields the fixed MUY BAJA default with combined
score 0 and action "No prioritario". -/
theorem main_deep_dive_scores_defaults :
    (∀ (p : Option ScoreResult) (f : ℤ → ℤ → Option OpportunityLevel),
      (main_deep_dive_scores none p f).1 =
        { score := 0, grade := "F", factors := [] }) ∧
    (∀ (t : Option ScoreResult) (f : ℤ → ℤ → Option OpportunityLevel),
      (main_deep_dive_scores t none f).2.1 =
        { score := 0, grade := "F", factors := [] }) ∧
    (∀ t p : Option ScoreResult,
      (main_deep_dive_scores t p (fun _ _ => none)).2.2 =
        { level := "MUY BAJA", combined_score := 0, action := "No prioritario",
          color := "#EF4444", icon := "❄️" }) :=
  ⟨fun _ _ => rfl, fun _ _ => rfl, fun _ _ => rfl⟩

/-- Embeds a Python metrics object as seen by `render_social_media_section`
(src/components/social_media_panel.py lines 41-49): the result of accessing
its `total_videos` attribute is `.ok (some v)` for a present attribute with
value v, `.ok none` for a missing attribute, and `.error e` for an attribute
access that raises. -/
structure PyMetricsObject where
  total_videos_attr : Except String (Option ℤ)
deriving Repr

/-- Embeds Python `getattr(m, "total_videos", 0)`: the default is returned
when the attribute is missing; an access that raises propagates the error. -/
def getattr_total_videos (m : PyMetricsObject) (default : ℤ) : Except String ℤ :=
  match m.total_videos_attr with
  | .error e => .error e
  | .ok (some v) => .ok v
  | .ok none => .ok default

/-- Embeds the guarded check of src/components/social_media_panel.py lines
41-49: `has_x = m is not None and getattr(m, "total_videos", 0) > 0` inside a
`try/except Exception: pass`, which leaves the flag at its initial False when
the access raises.  The check is a total Boolean function: no exception
propagates out of it. -/
def has_platform_check (m : Option PyMetricsObject) : Bool :=
  match m with
  | none => false
  | some obj =>
    match getattr_total_videos obj 0 with
    | .error _ => false
    | .ok v => decide (0 < v)

/-- The fields of the combined social metrics object that
`render_social_media_section` reads after the no-data guard. -/
structure SocialMetricsView where
  social_score : ℤ
  opportunity_type : String
deriving Repr, DecidableEq

/-- The observable outcome of `render_social_media_section`: either the
early-return no-data message, or the full section, whose content depends on
the social metrics and the per-platform flags. -/
inductive SocialSectionOutcome where
  | noData
  | rendered (social_score : Option ℤ) (opportunity_type : Option String)
      (has_youtube has_tiktok : Bool)
deriving Repr, DecidableEq

/-- Embeds the control flow of `render_social_media_section`
(src/components/social_media_panel.py lines 14-94): after the two guarded
platform checks, when neither platform has data the function emits the
no-data message and returns before touching `social_metrics`; otherwise it
renders the full section, whose content reads `social_metrics`. -/
def render_social_media_section
    (youtube_metrics tiktok_metrics : Option PyMetricsObject)
    (social_metrics : Option SocialMetricsView) : SocialSectionOutcome :=
  let has_youtube := has_platform_check youtube_metrics
  let has_tiktok := has_platform_check tiktok_metrics
  if !has_youtube && !has_tiktok then .noData
  else
    .rendered (social_metrics.map (fun s => s.social_score))
      (social_metrics.map (fun s => s.opportunity_type)) has_youtube has_tiktok

/-- C9: whenever neither platform check finds data — each metrics argument
may be None, lack the attribute, or even raise on access — the section
renders only the no-data message, its outcome is independent of
social_metrics (which is never read), and the guarded check maps a raising
access to False instead of propagating the exception. -/
theorem render_social_media_section_no_data
    (yt tk : Option PyMetricsObject) (sm : Option SocialMetricsView)
    (hyt : has_platform_check yt = false) (htk : has_platform_check tk = false) :
    render_social_media_section yt tk sm = SocialSectionOutcome.noData ∧
    (∀ sm2 : Option SocialMetricsView,
      render_social_media_section yt tk sm = render_social_media_section yt tk sm2) ∧
    (∀ e : String,
      has_platform_check (some { total_videos_attr := Except.error e }) = false) := by
  refine ⟨?_, ?_, fun e => rfl⟩
  · simp [render_social_media_section, hyt, htk]
  · intro sm2
    simp [render_social_media_section, hyt, htk]

/-- Witness for C9: a YouTube object whose attribute access raises and an
absent TikTok object, with a populated social metrics value, still reach the
no-data early return. -/
theorem render_social_media_section_no_data_witness :
    render_social_media_section (some { total_videos_attr := Except.error "boom" })
      none (some { social_score := 50, opportunity_type := "none" }) =
      SocialSectionOutcome.noData :=
  (render_social_media_section_no_data
    (some { total_videos_attr := Except.error "boom" }) none
    (some { social_score := 50, opportunity_type := "none" }) rfl rfl).1

/-- Embeds `_format_number` (src/components/social_media_panel.py lines
443-451).  The branch conditions are exact integer comparisons.  Each
formatting branch renders `num / divisor` to one decimal through an IEEE-754
double division and f-string, which is abstracted here as the formatter
argument `fmt1` applied to the number and the branch's divisor; the final
branch returns the decimal string of the integer itself. -/
def _format_number (fmt1 : ℤ → ℤ → String) (num : ℤ) : String :=
  if num ≥ 1000000000 then fmt1 num 1000000000 ++ "B"
  else if num ≥ 1000000 then fmt1 num 1000000 ++ "M"
  else if num ≥ 1000 then fmt1 num 1000 ++ "K"
  else toString num

/-- C10: for every integer, `_format_number` returns the plain decimal string
below 1000, the one-decimal rendering of n/1000 suffixed K on
[1000, 1000000), of n/1000000 suffixed M on [1000000, 1000000000), and of
n/1000000000 suffixed B from 1000000000 up — and exactly one of the four
branches applies to each integer. -/
theorem format_number_branches (fmt1 : ℤ → ℤ → String) (n : ℤ) :
    (n < 1000 → _format_number fmt1 n = toString n) ∧
    (1000 ≤ n → n < 1000000 → _format_number fmt1 n = fmt1 n 1000 ++ "K") ∧
    (1000000 ≤ n → n < 1000000000 → _format_number fmt1 n = fmt1 n 1000000 ++ "M") ∧
    (1000000000 ≤ n → _format_number fmt1 n = fmt1 n 1000000000 ++ "B") ∧
    ((n < 1000 ∨ (1000 ≤ n ∧ n < 1000000) ∨ (1000000 ≤ n ∧ n < 1000000000) ∨
        1000000000 ≤ n) ∧
      ¬(n < 1000 ∧ 1000 ≤ n ∧ n < 1000000) ∧
      ¬(n < 1000 ∧ 1000000 ≤ n ∧ n < 1000000000) ∧
      ¬(n < 1000 ∧ 1000000000 ≤ n) ∧
      ¬((1000 ≤ n ∧ n < 1000000) ∧ 1000000 ≤ n ∧ n < 1000000000) ∧
      ¬((1000 ≤ n ∧ n < 1000000) ∧ 1000000000 ≤ n) ∧
      ¬((1000000 ≤ n ∧ n < 1000000000) ∧ 1000000000 ≤ n)) := by
  refine ⟨?_, ?_, ?_, ?_, by omega⟩
  · intro h
    rw [_format_number, if_neg (by omega), if_neg (by omega), if_neg (by omega)]
  · intro h1 h2
    rw [_format_number, if_neg (by omega), if_neg (by omega), if_pos (by omega)]
  · intro h1 h2
    rw [_format_number, if_neg (by omega), if_pos (by omega)]
  · intro h
    rw [_format_number, if_pos (by omega)]

/-- Witness for C10 with a constant formatter, exercising all four branches
at 999, 1500, 2000000 and 3000000000. -/
theorem format_number_branches_witness :
    _format_number (fun _ _ => "1.5") 999 = toString (999 : ℤ) ∧
    _format_number (fun _ _ => "1.5") 1500 = "1.5" ++ "K" ∧
    _format_number (fun _ _ => "2.0") 2000000 = "2.0" ++ "M" ∧
    _format_number (fun _ _ => "3.0") 3000000000 = "3.0" ++ "B" :=
  ⟨(format_number_branches (fun _ _ => "1.5") 999).1 (by norm_num),
    (format_number_branches (fun _ _ => "1.5") 1500).2.1 (by norm_num) (by norm_num),
    (format_number_branches (fun _ _ => "2.0") 2000000).2.2.1 (by norm_num) (by norm_num),
    (format_number_branches (fun _ _ => "3.0") 3000000000).2.2.2.1 (by norm_num)⟩

end AbraTrend
